import Mathlib

/-
Shallow embedding of oio-swift's crypto decrypter middleware
(oioswift/common/middleware/crypto/decrypter.py).

The file models, from the source:
  - DecrypterObjContext.get_decryption_keys  (key resolution with the
    container-scope fallback for read verbs),
  - DecrypterObjContext.decrypt_resp_headers (etag decryption, integrity
    cross-check, metadata remap merge, passthrough dedup),
  - Decrypter.__call__                       (path/verb dispatch).

Python exceptions are modelled by the PyExc type and fallible code returns
Except PyExc. Collaborators that live in the swift base classes rather than
in this repository (the header codec, the key service, the user-metadata
remapper, the response-header multimap) are modelled from the spec, as
oracle parameters or as small definitions marked "Modelled from the spec".
-/

namespace Decr

/-- Python exception classes relevant to the decrypter: the HTTP exception
family (HTTPForbidden, HTTPInternalServerError, access denials from the key
service), KeyError, ValueError, and a catch-all for other classes. -/
inductive PyExc where
  | httpForbidden (msg : String)
  | httpInternalServerError
  | httpUnauthorized
  | keyError
  | valueError
  | otherError (name : String)
  deriving DecidableEq, Repr

/-- Which exception classes are subclasses of swift's HTTPException (these
are what `except HTTPException` catches). -/
def isHTTPException : PyExc → Bool
  | .httpForbidden _ => true
  | .httpInternalServerError => true
  | .httpUnauthorized => true
  | _ => false

/-- A Python dict mapping key scope names to raw key values, modelled as an
association list. -/
abbrev KeyDict := List (String × String)

/-- A raw response header pair (always a string value). -/
abbrev Header := String × String

/-- A produced header pair; the value may be Python None (e.g. the
container-override etag staged when the optional decryption yielded no
value), hence Option. Raw passthrough headers are injected with some. -/
abbrev HdrPair := String × Option String

/-- The decryption oracle of the external cipher capability:
given header name, ciphertext and key, yields the plaintext, or none when
decryption fails. -/
abbrev DecFun := String → String → String → Option String

/-- Python str.lower() as used on (ASCII) header names, defined by
per-character mapping so that it evaluates by kernel reduction. -/
def lowerStr (s : String) : String := ⟨s.data.map Char.toLower⟩

/-- Python truthiness of a string-or-None value: None and the empty string
are falsy. -/
def truthyStr : Option String → Bool
  | none => false
  | some s => !(s == "")

/-- Python truthiness of a dict-or-None value: None and the empty dict are
falsy. -/
def truthyDict : Option KeyDict → Bool
  | none => false
  | some d => !d.isEmpty

/-- The object-scope encrypted etag sysmeta header name, a literal in the
source. -/
def etagSysmetaHeader : String := "X-Object-Sysmeta-Crypto-Etag"

/-- Modelled from the spec: the container-update-override checksum header
name produced by swift's get_container_update_override_key('etag'), i.e.
the object sysmeta prefix + 'container-update-override-etag', title-cased.
That helper lives in swift.common.request_helpers, outside this repo. -/
def containerUpdateOverrideEtag : String :=
  "X-Object-Sysmeta-Container-Update-Override-Etag"

/-- Modelled from the spec: the response-header multimap lookup used by the
swift base class (_response_header_value): the value of the first header
whose name matches case-insensitively, or none. -/
def response_header_value (resp : List Header) (name : String) :
    Option String :=
  (resp.find? (fun p => lowerStr p.1 == lowerStr name)).map (fun p => p.2)

/-- Modelled from the spec: the Header Codec (_decrypt_header of the swift
base class, not under this repo). Decrypts one header value with the given
key; when decryption fails and the value is required this is a fatal
internal processing failure, otherwise failure means the value is absent. -/
def decrypt_header (dec : DecFun) (name value key : String)
    (required : Bool) : Except PyExc (Option String) :=
  match dec name value key with
  | some v => .ok (some v)
  | none => if required then .error .httpInternalServerError else .ok none

/-- The etag staging phase of DecrypterObjContext.decrypt_resp_headers
(source lines 71-98): when the PUT-keys dict is truthy, decrypt the
object-scope etag (required) and stage it as Etag, then decrypt the
container-override copy (optional), cross-check it against the object-scope
value, and stage it under the override name and ETag.
Returns the staged pair list, or the raised exception. -/
def stage_etag_headers (dec : DecFun) (put_keys : Option KeyDict)
    (resp : List Header) : Except PyExc (List HdrPair) :=
  if truthyDict put_keys then
    let pk := put_keys.getD []
    let step1 : Except PyExc (Option String × List HdrPair) :=
      match response_header_value resp etagSysmetaHeader,
            pk.lookup "object" with
      | some e1, some kobj =>
        if e1 == "" then .ok (none, [])
        else
          match decrypt_header dec etagSysmetaHeader e1 kobj true with
          | .error ex => .error ex
          | .ok d => .ok (d, [("Etag", d)])
      | _, _ => .ok (none, [])
    match step1 with
    | .error ex => .error ex
    | .ok (decrypted_etag, pairs1) =>
      match response_header_value resp containerUpdateOverrideEtag,
            pk.lookup "container" with
      | some e2, some kcon =>
        if e2 == "" then .ok pairs1
        else
          match decrypt_header dec containerUpdateOverrideEtag e2 kcon
                false with
          | .error ex => .error ex
          | .ok ovr =>
            if truthyStr decrypted_etag && (ovr != decrypted_etag) then
              .error (.httpForbidden "Invalid key")
            else
              .ok (pairs1 ++
                   [(containerUpdateOverrideEtag, ovr), ("ETag", ovr)])
      | _, _ => .ok pairs1
  else .ok []

/-- DecrypterObjContext.decrypt_resp_headers (source lines 58-116).
The outcome of self.decrypt_user_metadata(post_keys) — a swift base-class
method, outside this repo — is passed as the oracle `dum`; it is consulted
only when the POST-keys dict is truthy (`if post_keys:`). The try block
covers both the metadata extend and the passthrough merge, and its except
clause catches exactly KeyError, returning the pairs staged so far. -/
def decrypt_resp_headers (dec : DecFun) (put_keys post_keys : Option KeyDict)
    (resp : List Header) (dum : Except PyExc (List HdrPair)) :
    Except PyExc (List HdrPair) :=
  match stage_etag_headers dec put_keys resp with
  | .error ex => .error ex
  | .ok staged =>
    let tryResult : Except PyExc (List HdrPair) :=
      match (if truthyDict post_keys then dum else .ok []) with
      | .error ex => .error ex
      | .ok meta =>
        let staged2 := staged ++ meta
        let names := staged2.map (fun p => lowerStr p.1)
        .ok (staged2 ++
             (resp.filter (fun p => !(decide (lowerStr p.1 ∈ names)))).map
               (fun p => (p.1, some p.2)))
    match tryResult with
    | .error .keyError => .ok staged
    | r => r

/-- The key_id extraction: crypto_meta.get('key_id') if crypto_meta else
None, on a crypto-meta dict modelled as an association list. -/
def cryptoMetaKeyId : Option (List (String × String)) → Option String
  | none => none
  | some cm => cm.lookup "key_id"

/-- DecrypterObjContext.get_decryption_keys (source lines 26-56).
`override` models config_true_value(req.environ.get('swift.crypto.override'));
`hasCryptoEtagSysmeta` models 'crypto-etag' in get_object_info(...)['sysmeta'];
`get_keys` is the swift base-class key fetcher, an oracle taking the scope
list argument (none = the default full scope) and the key id. -/
def get_decryption_keys (override hasCryptoEtagSysmeta : Bool)
    (method : String) (crypto_meta : Option (List (String × String)))
    (get_keys : Option (List String) → Option String → Except PyExc KeyDict) :
    Except PyExc (Option KeyDict) :=
  if override then .ok none
  else if !hasCryptoEtagSysmeta then .ok none
  else
    let key_id := cryptoMetaKeyId crypto_meta
    match get_keys none key_id with
    | .ok ks => .ok (some ks)
    | .error e =>
      if isHTTPException e then
        if method == "HEAD" || method == "GET" then
          match get_keys (some ["container"]) key_id with
          | .ok ks => .ok (some ks)
          | .error e2 => if isHTTPException e2 then .ok none else .error e2
        else .error e
      else .error e

/-- Routing outcomes of Decrypter.__call__. -/
inductive Route where
  | passthrough
  | objHandler
  | contHandler
  deriving DecidableEq, Repr

/-- The request as the dispatcher sees it: the verb, and the outcome of
req.split_path(3, 4, True) — none models the ValueError of a failed parse,
otherwise the four segments (missing trailing segments are None). -/
structure SwobRequest where
  method : String
  parts : Option (Option String × Option String × Option String × Option String)

/-- Decrypter.__call__ routing (source lines 122-141): on parse failure pass
through; if the object segment (parts[3]) is truthy and the verb is HEAD or
GET use the object context; else if the container segment (parts[2]) is
truthy and the verb is GET use the container context; else pass through. -/
def decrypter_call_route (req : SwobRequest) : Route :=
  match req.parts with
  | none => .passthrough
  | some (_, _, p2, p3) =>
    if truthyStr p3 && (req.method == "HEAD" || req.method == "GET") then
      .objHandler
    else if truthyStr p2 && (req.method == "GET") then
      .contHandler
    else .passthrough

/-- Spec-side routing definition, following the words of the dispatcher
contract: parse failure passes through; an object segment with a read verb
goes to the object handler; a container segment without an object segment
with GET goes to the container handler; every other case passes through. -/
def decrypter_route_spec (req : SwobRequest) : Route :=
  match req.parts with
  | none => .passthrough
  | some (_, _, p2, p3) =>
    if truthyStr p3 && (req.method == "HEAD" || req.method == "GET") then
      .objHandler
    else if truthyStr p2 && !truthyStr p3 && (req.method == "GET") then
      .contHandler
    else .passthrough




/-- A dict with a successful lookup is truthy. -/
theorem truthyDict_of_lookup {pk : KeyDict} {a : String} {k : String}
    (h : pk.lookup a = some k) : truthyDict (some pk) = true := by
  cases pk with
  | nil => simp [List.lookup] at h
  | cons p l => simp [truthyDict, List.isEmpty]

/-- C5: for a read verb (HEAD or GET), when the full-scope key fetch raises
an HTTP access denial, get_decryption_keys retries with scope
['container'] and the same key id: a successful retry yields that bundle,
a denied retry yields the NotRequired outcome (None) rather than an
error. -/
theorem c5_read_fallback (m : String) (hm : m = "HEAD" ∨ m = "GET")
    (cm : Option (List (String × String)))
    (gk : Option (List String) → Option String → Except PyExc KeyDict)
    (e : PyExc)
    (h1 : gk none (cryptoMetaKeyId cm) = .error e)
    (he : isHTTPException e = true) :
    (∀ ks, gk (some ["container"]) (cryptoMetaKeyId cm) = .ok ks →
       get_decryption_keys false true m cm gk = .ok (some ks)) ∧
    (∀ e2, gk (some ["container"]) (cryptoMetaKeyId cm) = .error e2 →
       isHTTPException e2 = true →
       get_decryption_keys false true m cm gk = .ok none) := by
  have hmb : (m == "HEAD" || m == "GET") = true := by
    rcases hm with h | h <;> subst h <;> rfl
  constructor
  · intro ks hks
    simp [get_decryption_keys, h1, he, hmb, hks]
  · intro e2 hke2 he2
    simp [get_decryption_keys, h1, he, hmb, hke2, he2]

/-- Witness for C5 at a concrete GET request whose full-scope fetch is
denied but whose container-scope retry succeeds. -/
theorem c5_read_fallback_witness :
    get_decryption_keys false true "GET" none
      (fun scopes _ => match scopes with
        | none => .error .httpUnauthorized
        | some _ => .ok [("container", "ck")]) =
      .ok (some [("container", "ck")]) :=
  (c5_read_fallback "GET" (Or.inr rfl) none _ .httpUnauthorized rfl rfl).1
    [("container", "ck")] rfl

/-- C6: for a non-read verb, an HTTP access denial from the key fetch is
re-raised by get_decryption_keys, with no container retry and no degrade
to None. -/
theorem c6_nonread_raises (m : String) (hm : ¬(m = "HEAD" ∨ m = "GET"))
    (cm : Option (List (String × String)))
    (gk : Option (List String) → Option String → Except PyExc KeyDict)
    (e : PyExc)
    (h1 : gk none (cryptoMetaKeyId cm) = .error e)
    (he : isHTTPException e = true) :
    get_decryption_keys false true m cm gk = .error e := by
  push_neg at hm
  have hmb : (m == "HEAD" || m == "GET") = false := by
    simp [hm.1, hm.2]
  simp [get_decryption_keys, h1, he, hmb]

/-- Witness for C6 at a concrete POST request with a denied key fetch. -/
theorem c6_nonread_raises_witness :
    get_decryption_keys false true "POST" none
      (fun _ _ => .error .httpUnauthorized) = .error .httpUnauthorized :=
  c6_nonread_raises "POST" (by decide) none _ .httpUnauthorized rfl rfl

/-- C7: with no override flag and no crypto-etag sysmeta marker,
get_decryption_keys returns the NotRequired outcome (None), and
decrypt_resp_headers applied to empty (None) key bundles returns exactly
the raw response headers, unchanged and in order. -/
theorem c7_unencrypted_frame (m : String)
    (cm : Option (List (String × String)))
    (gk : Option (List String) → Option String → Except PyExc KeyDict) :
    get_decryption_keys false false m cm gk = .ok none ∧
    ∀ (dec : DecFun) (resp : List Header) (dum : Except PyExc (List HdrPair)),
      decrypt_resp_headers dec none none resp dum =
        .ok (resp.map (fun p => (p.1, some p.2))) := by
  constructor
  · rfl
  · intro dec resp dum
    simp [decrypt_resp_headers, stage_etag_headers, truthyDict,
          List.filter_eq_self]


/-- C9: the dispatcher of Decrypter.__call__ routes exactly as the spec's
case analysis describes: parse failure passes through; a truthy object
segment with verb HEAD or GET goes to the object handler; a truthy
container segment with no truthy object segment and verb GET goes to the
container handler; every other case passes through. -/
theorem c9_dispatch (req : SwobRequest) :
    decrypter_call_route req = decrypter_route_spec req := by
  obtain ⟨m, parts⟩ := req
  cases parts with
  | none => rfl
  | some q =>
    obtain ⟨p0, p1, p2, p3⟩ := q
    simp only [decrypter_call_route, decrypter_route_spec]
    by_cases h3 : truthyStr p3 = true
    · simp only [h3]
      by_cases hm : (m == "HEAD" || m == "GET") = true
      · simp [hm]
      · have hg : (m == "GET") = false := by
          rcases Bool.or_eq_false_iff.mp (Bool.eq_false_iff.mpr hm) with ⟨_, hg⟩
          exact hg
        simp [hm, hg, h3]
    · have h3f : truthyStr p3 = false := Bool.eq_false_iff.mpr h3
      simp [h3f]

/-- With required = false the header codec never raises: it returns the
decryption outcome as an optional value. -/
theorem decrypt_header_false (dec : DecFun) (n v k : String) :
    decrypt_header dec n v k false = .ok (dec n v k) := by
  simp only [decrypt_header]
  cases dec n v k <;> rfl

/-- C1 counterexample: both checksum copies present, both keys in the
bundle, the decrypted values differ ("" versus "x"), yet no forbidden
error is raised and a header sequence is returned, because the mismatch
check is guarded by Python truthiness of the object-scope value and the
empty string is falsy. -/
theorem c1_counterexample :
    decrypt_resp_headers
      (fun n _ _ => if n == etagSysmetaHeader then some "" else some "x")
      (some [("object", "k1"), ("container", "k2")]) none
      [(etagSysmetaHeader, "e1"), (containerUpdateOverrideEtag, "e2")]
      (.ok []) =
      .ok [("Etag", some ""),
           (containerUpdateOverrideEtag, some "x"),
           ("ETag", some "x"),
           (etagSysmetaHeader, some "e1")] ∧
    (fun n _ _ => if n == etagSysmetaHeader then some "" else some "x" :
      DecFun) etagSysmetaHeader "e1" "k1" = some "" ∧
    (fun n _ _ => if n == etagSysmetaHeader then some "" else some "x" :
      DecFun) containerUpdateOverrideEtag "e2" "k2" = some "x" ∧
    ("" : String) ≠ "x" :=
  ⟨rfl, rfl, by decide, by decide⟩

/-- C1 as amended: when both encrypted checksum copies are present, the
bundle holds both keys, the object-scope copy decrypts to a non-empty
value and the container-scope copy decrypts to a different value, then
decrypt_resp_headers raises HTTPForbidden 'Invalid key' and produces no
header sequence. -/
theorem c1_amended (dec : DecFun) (pk : KeyDict)
    (post_keys : Option KeyDict) (resp : List Header)
    (dum : Except PyExc (List HdrPair))
    (kobj kcon e1 e2 v1 v2 : String)
    (hobj : pk.lookup "object" = some kobj)
    (hcon : pk.lookup "container" = some kcon)
    (h1 : response_header_value resp etagSysmetaHeader = some e1)
    (h1t : e1 ≠ "")
    (h2 : response_header_value resp containerUpdateOverrideEtag = some e2)
    (h2t : e2 ≠ "")
    (hd1 : dec etagSysmetaHeader e1 kobj = some v1)
    (hv1 : v1 ≠ "")
    (hd2 : dec containerUpdateOverrideEtag e2 kcon = some v2)
    (hne : v2 ≠ v1) :
    decrypt_resp_headers dec (some pk) post_keys resp dum =
      .error (.httpForbidden "Invalid key") := by
  have htr := truthyDict_of_lookup hobj
  simp [decrypt_resp_headers, stage_etag_headers, decrypt_header, htr,
        h1, h2, hobj, hcon, hd1, hd2, h1t, h2t, truthyStr, hv1, hne]

/-- Witness for the amended C1 at concrete differing plaintexts v1, v2. -/
theorem c1_amended_witness :
    decrypt_resp_headers
      (fun n _ _ => if n == etagSysmetaHeader then some "v1" else some "v2")
      (some [("object", "k1"), ("container", "k2")]) none
      [(etagSysmetaHeader, "e1"), (containerUpdateOverrideEtag, "e2")]
      (.ok []) = .error (.httpForbidden "Invalid key") :=
  c1_amended _ _ none _ (.ok []) "k1" "k2" "e1" "e2" "v1" "v2"
    rfl rfl rfl (by decide) rfl (by decide) rfl (by decide) rfl (by decide)

/-- C10: when the object-scope checksum decrypts to a non-empty value and
the container-scope copy is present with its key but its optional
decryption fails (yields no value), decrypt_resp_headers raises
HTTPForbidden 'Invalid key': the absent value is compared against the
object-scope plaintext as a mismatch instead of the header being
omitted. -/
theorem c10_optional_failure_mismatch (dec : DecFun) (pk : KeyDict)
    (post_keys : Option KeyDict) (resp : List Header)
    (dum : Except PyExc (List HdrPair))
    (kobj kcon e1 e2 v1 : String)
    (hobj : pk.lookup "object" = some kobj)
    (hcon : pk.lookup "container" = some kcon)
    (h1 : response_header_value resp etagSysmetaHeader = some e1)
    (h1t : e1 ≠ "")
    (h2 : response_header_value resp containerUpdateOverrideEtag = some e2)
    (h2t : e2 ≠ "")
    (hd1 : dec etagSysmetaHeader e1 kobj = some v1)
    (hv1 : v1 ≠ "")
    (hd2 : dec containerUpdateOverrideEtag e2 kcon = none) :
    decrypt_resp_headers dec (some pk) post_keys resp dum =
      .error (.httpForbidden "Invalid key") := by
  have htr := truthyDict_of_lookup hobj
  simp [decrypt_resp_headers, stage_etag_headers, decrypt_header, htr,
        h1, h2, hobj, hcon, hd1, hd2, h1t, h2t, truthyStr, hv1]

/-- Witness for C10: concrete response where the container copy fails to
decrypt while the object copy decrypts to "v1". -/
theorem c10_optional_failure_mismatch_witness :
    decrypt_resp_headers
      (fun n _ _ => if n == etagSysmetaHeader then some "v1" else none)
      (some [("object", "k1"), ("container", "k2")]) none
      [(etagSysmetaHeader, "e1"), (containerUpdateOverrideEtag, "e2")]
      (.ok []) = .error (.httpForbidden "Invalid key") :=
  c10_optional_failure_mismatch _ _ none _ (.ok []) "k1" "k2" "e1" "e2" "v1"
    rfl rfl rfl (by decide) rfl (by decide) rfl (by decide) rfl

/-- C2 counterexample: with both checksum copies present and decrypting to
the same value, the returned sequence contains both ('Etag', v) and
('ETag', v) — two entries with case-insensitively equal but distinct
names — because the dedup set is only applied to the raw passthrough
headers, not to the staged entries themselves. -/
theorem c2_counterexample :
    decrypt_resp_headers (fun _ _ _ => some "same")
      (some [("object", "k1"), ("container", "k2")]) none
      [(etagSysmetaHeader, "e1"), (containerUpdateOverrideEtag, "e2")]
      (.ok []) =
      .ok [("Etag", some "same"),
           (containerUpdateOverrideEtag, some "same"),
           ("ETag", some "same"),
           (etagSysmetaHeader, some "e1")] ∧
    lowerStr "Etag" = lowerStr "ETag" ∧ ("Etag" : String) ≠ "ETag" :=
  ⟨rfl, rfl, by decide⟩

/-- C2 as amended: case-insensitive uniqueness is enforced only between the
passthrough raw response headers and the already-staged entries: every
entry appended by the final merge comes from the raw response and its name
is case-insensitively distinct from every staged entry's name; the staged
entries themselves are not deduplicated. -/
theorem c2_amended (dec : DecFun) (put_keys post_keys : Option KeyDict)
    (resp : List Header) (dum : Except PyExc (List HdrPair))
    (staged meta : List HdrPair)
    (hstage : stage_etag_headers dec put_keys resp = .ok staged)
    (hmeta : (if truthyDict post_keys then dum else .ok []) = .ok meta) :
    ∃ rest,
      decrypt_resp_headers dec put_keys post_keys resp dum =
        .ok (staged ++ meta ++ rest) ∧
      ∀ p ∈ rest, (∃ v, p = (p.1, some v) ∧ (p.1, v) ∈ resp) ∧
        ∀ q ∈ staged ++ meta, lowerStr p.1 ≠ lowerStr q.1 := by
  refine ⟨(resp.filter (fun r =>
      !(decide (lowerStr r.1 ∈ (staged ++ meta).map (fun q => lowerStr q.1))))).map
      (fun r => (r.1, some r.2)), ?_, ?_⟩
  · simp [decrypt_resp_headers, hstage, hmeta, List.append_assoc]
  · intro p hp
    simp only [List.mem_map] at hp
    obtain ⟨r, hr, rfl⟩ := hp
    rw [List.mem_filter] at hr
    obtain ⟨hrmem, hrpred⟩ := hr
    simp only [Bool.not_eq_true', decide_eq_false_iff_not] at hrpred
    refine ⟨⟨r.2, rfl, hrmem⟩, ?_⟩
    intro q hq heq
    exact hrpred ⟨q, hq, heq.symm⟩

/-- Witness for the amended C2 at a concrete response with one staged
header and one passthrough header. -/
theorem c2_amended_witness :
    ∃ rest,
      decrypt_resp_headers (fun _ _ _ => some "p") (some [("object", "k")])
        none [(etagSysmetaHeader, "e")] (.ok []) =
        .ok ([("Etag", some "p")] ++ [] ++ rest) ∧
      ∀ p ∈ rest,
        (∃ v, p = (p.1, some v) ∧ (p.1, v) ∈ [(etagSysmetaHeader, "e")]) ∧
        ∀ q ∈ ([("Etag", some "p")] ++ [] : List HdrPair),
          lowerStr p.1 ≠ lowerStr q.1 :=
  c2_amended (fun _ _ _ => some "p") (some [("object", "k")]) none
    [(etagSysmetaHeader, "e")] (.ok []) [("Etag", some "p")] [] rfl rfl

/-- C3 counterexample: with an object key, a present object-scope encrypted
checksum and a successful decryption, the result stages the plaintext
under 'Etag' only — no entry carries the container-update-override
name. -/
theorem c3_counterexample :
    decrypt_resp_headers (fun _ _ _ => some "plain")
      (some [("object", "k1")]) none [(etagSysmetaHeader, "e1")] (.ok []) =
      .ok [("Etag", some "plain"), (etagSysmetaHeader, some "e1")] ∧
    ∀ p ∈ [("Etag", (some "plain" : Option String)),
           (etagSysmetaHeader, some "e1")],
      p.1 ≠ containerUpdateOverrideEtag :=
  ⟨rfl, by decide⟩

/-- C3 as amended: when the bundle holds an object-scope key and the
object-scope encrypted checksum is present, it is decrypted as required
(failure raises the internal processing error); on success the plaintext
is staged under the client-visible 'Etag' name only — the
container-update-override name is staged only by the container-scope
step. -/
theorem c3_amended (dec : DecFun) (pk : KeyDict) (resp : List Header)
    (kobj e1 : String)
    (hobj : pk.lookup "object" = some kobj)
    (h1 : response_header_value resp etagSysmetaHeader = some e1)
    (h1t : e1 ≠ "")
    (hnoc : response_header_value resp containerUpdateOverrideEtag = none ∨
            pk.lookup "container" = none) :
    (∀ v1, dec etagSysmetaHeader e1 kobj = some v1 →
       stage_etag_headers dec (some pk) resp = .ok [("Etag", some v1)]) ∧
    (∀ (post_keys : Option KeyDict) (dum : Except PyExc (List HdrPair)),
       dec etagSysmetaHeader e1 kobj = none →
       decrypt_resp_headers dec (some pk) post_keys resp dum =
         .error .httpInternalServerError) := by
  have htr := truthyDict_of_lookup hobj
  constructor
  · intro v1 hd1
    rcases hnoc with hno | hno
    · cases hc : pk.lookup "container" <;>
        simp [stage_etag_headers, decrypt_header, htr, h1, hobj, hd1, h1t,
              hno, hc]
    · cases h2 : response_header_value resp containerUpdateOverrideEtag <;>
        simp [stage_etag_headers, decrypt_header, htr, h1, hobj, hd1, h1t,
              hno, h2]
  · intro post_keys dum hd1
    simp [decrypt_resp_headers, stage_etag_headers, decrypt_header, htr,
          h1, hobj, hd1, h1t]

/-- Witness for the amended C3: concrete successful object-scope
decryption staging exactly the 'Etag' pair. -/
theorem c3_amended_witness :
    stage_etag_headers (fun _ _ _ => some "p") (some [("object", "k")])
      [(etagSysmetaHeader, "e")] = .ok [("Etag", some "p")] :=
  (c3_amended (fun _ _ _ => some "p") [("object", "k")]
    [(etagSysmetaHeader, "e")] "k" "e" rfl rfl (by decide)
    (Or.inl rfl)).1 "p" rfl

/-- C4 counterexample: when the metadata remap raises KeyError, the final
sequence is returned without the passthrough merge: the original response
header ('X-Foo', 'bar') is dropped although it collides with nothing. -/
theorem c4_counterexample :
    decrypt_resp_headers (fun _ _ _ => none) none (some [("container", "k")])
      [("X-Foo", "bar")] (.error .keyError) = .ok [] ∧
    (("X-Foo", some "bar") : HdrPair) ∉ ([] : List HdrPair) :=
  ⟨rfl, by decide⟩

/-- C4 as amended: when the metadata remap raises KeyError, the failure is
swallowed (logged), but the passthrough merge is skipped too: the result
is exactly the checksum pairs staged before the remap, and the original
response headers are dropped rather than preserved. -/
theorem c4_amended (dec : DecFun) (put_keys post_keys : Option KeyDict)
    (resp : List Header) (staged : List HdrPair)
    (hstage : stage_etag_headers dec put_keys resp = .ok staged)
    (hpost : truthyDict post_keys = true) :
    decrypt_resp_headers dec put_keys post_keys resp (.error .keyError) =
      .ok staged := by
  simp [decrypt_resp_headers, hstage, hpost]

/-- Witness for the amended C4 at a concrete response. -/
theorem c4_amended_witness :
    decrypt_resp_headers (fun _ _ _ => none) none (some [("object", "k")])
      [("X-Bar", "1")] (.error .keyError) = .ok [] :=
  c4_amended (fun _ _ _ => none) none (some [("object", "k")])
    [("X-Bar", "1")] [] rfl rfl

/-- C8 counterexample: a ValueError raised inside the remap-and-merge step
propagates out of decrypt_resp_headers — not every exception type is
swallowed. -/
theorem c8_counterexample :
    decrypt_resp_headers (fun _ _ _ => none) none (some [("container", "k")])
      [] (.error .valueError) = .error .valueError := rfl

/-- C8 as amended: the remap-and-merge step catches exactly KeyError: a
KeyError outcome is swallowed and a header sequence is still returned,
while an exception of any other class propagates out of
decrypt_resp_headers unchanged. -/
theorem c8_amended (dec : DecFun) (put_keys post_keys : Option KeyDict)
    (resp : List Header) (staged : List HdrPair)
    (hstage : stage_etag_headers dec put_keys resp = .ok staged)
    (hpost : truthyDict post_keys = true) :
    (∀ e, e ≠ PyExc.keyError →
       decrypt_resp_headers dec put_keys post_keys resp (.error e) =
         .error e) ∧
    (∃ hs, decrypt_resp_headers dec put_keys post_keys resp
       (.error .keyError) = .ok hs) := by
  constructor
  · intro e he
    simp only [decrypt_resp_headers, hstage, hpost]
    cases e <;> simp_all
  · exact ⟨staged, by simp [decrypt_resp_headers, hstage, hpost]⟩

/-- Witness for the amended C8: a concrete ValueError propagates. -/
theorem c8_amended_witness :
    decrypt_resp_headers (fun _ _ _ => none) none (some [("object", "k")]) []
      (.error .valueError) = .error .valueError :=
  (c8_amended (fun _ _ _ => none) none (some [("object", "k")]) [] []
    rfl rfl).1 .valueError (by decide)

end Decr
